import Mathlib

/-!
A verification development for the MyGH interactive repository browser
(`src/mygh/tui/browser.py` with the data model of `src/mygh/api/models.py`).

The browser's state machine is embedded shallowly:
* pure helpers of `browser.py` become Lean functions on an explicit record type;
* the reactive session attributes (`repositories`, `filtered_repositories`,
  `selected_repo`, `search_query`) become fields of an explicit `BrowserState`;
* Python exceptions become `Except String`;
* the API client and OS services, which the spec scopes out as abstract
  collaborators, become oracle records whose methods either succeed or fail.
-/

namespace MyGH

/-- A timestamp, as carried by the pydantic models (`datetime` values).
Only the calendar/clock fields that the browser's `strftime` calls render
are modelled. -/
structure DateTime where
  year : Nat
  month : Nat
  day : Nat
  hour : Nat
  minute : Nat
  second : Nat
deriving Repr, DecidableEq

/-- Zero-pad a numeral to two digits, as `strftime` does for `%m`, `%d`,
`%H`, `%M`, `%S`. -/
def pad2 (n : Nat) : String :=
  if n < 10 then "0" ++ toString n else toString n

/-- Zero-pad a numeral to four digits, as `strftime` does for `%Y`. -/
def pad4 (n : Nat) : String :=
  if n < 10 then "000" ++ toString n
  else if n < 100 then "00" ++ toString n
  else if n < 1000 then "0" ++ toString n
  else toString n

/-- `d.strftime("%Y-%m-%d")`, used by `populate_table` (browser.py line 303). -/
def DateTime.strftimeDate (d : DateTime) : String :=
  pad4 d.year ++ "-" ++ pad2 d.month ++ "-" ++ pad2 d.day

/-- `d.strftime("%Y-%m-%d %H:%M:%S")`, used by `update_display`
(browser.py lines 64-68). -/
def DateTime.strftimeFull (d : DateTime) : String :=
  d.strftimeDate ++ " " ++ pad2 d.hour ++ ":" ++ pad2 d.minute ++ ":" ++ pad2 d.second

/-- `GitHubUser` (models.py lines 9-29).  Fields the pydantic model declares
optional with default `None` are `Option`s; the browser itself only reads
`login`. -/
structure GitHubUser where
  id : Int
  login : String
  name : Option String := none
  email : Option String := none
  bio : Option String := none
  company : Option String := none
  location : Option String := none
  blog : Option String := none
  public_repos : Option Int := none
  public_gists : Option Int := none
  followers : Option Int := none
  following : Option Int := none
  created_at : Option DateTime := none
  updated_at : Option DateTime := none
  avatar_url : String
  html_url : String
deriving Repr, DecidableEq

/-- `GitHubRepo` (models.py lines 32-56), plus a slot for the dynamic
`starred` attribute the browser works with (`repo.starred = ...`,
browser.py lines 275/284/399/403, read back through
`getattr(repo, "starred", False)`).  `starred = none` models a record on
which the attribute was never set — on the pydantic model the setting
attempt in fact raises (see `setattr_starred`), but the slot keeps records
with the attribute set expressible, as the repository's own tests assume
them to be.  Note that models.py declares no `license` and no `homepage`
field. -/
structure GitHubRepo where
  id : Int
  name : String
  full_name : String
  description : Option String := none
  private_flag : Bool
  fork : Bool
  language : Option String := none
  stargazers_count : Int
  watchers_count : Int
  forks_count : Int
  open_issues_count : Int
  size : Int
  default_branch : String
  created_at : DateTime
  updated_at : DateTime
  pushed_at : Option DateTime := none
  html_url : String
  clone_url : String
  ssh_url : String
  owner : GitHubUser
  starred : Option Bool := none
deriving Repr, DecidableEq

/-- `getattr(repo, "starred", False)` (browser.py lines 378 and 397):
a read of the dynamic annotation that defaults to `False` when the
annotation was never set. -/
def getattr_starred (repo : GitHubRepo) : Bool :=
  repo.starred.getD false

/-- The attribute assignment `repo.starred = value` (browser.py lines 275,
284, 399 and 403).  `GitHubRepo` (models.py lines 32-56) declares no
`starred` field and its config does not allow extra attributes, so the
model's `__setattr__` rejects the assignment with
`ValueError: "GitHubRepo" object has no field "starred"` — the same
strictness under which the undeclared-attribute reads of `update_display`
raise.  The error payload is the exception's message as the boundary
handler interpolates it. -/
def setattr_starred (_ : GitHubRepo) (_ : Bool) : Except String GitHubRepo :=
  Except.error "\"GitHubRepo\" object has no field \"starred\""

/-- Python's substring test `needle in haystack` on strings: `needle` is a
contiguous substring of `haystack` (the empty string is a substring of
everything). -/
def pyIn (needle haystack : String) : Bool :=
  decide (needle.data <:+: haystack.data)

/-- Python's `str.lower()` on the character list (ASCII case folding, which
is all the repository's data exercises). -/
def pyLower (s : String) : String :=
  String.mk (s.data.map Char.toLower)

/-- Python truthiness of a string: `""` is falsy, used by
`if self.search_query:` (browser.py line 359). -/
def pyTruthy (s : String) : Bool :=
  !s.data.isEmpty

/-- Python truthiness of an optional string (`None` and `""` are falsy),
used by `repo.description and ...` / `repo.language and ...`
(browser.py lines 365-366). -/
def truthyStr : Option String → Bool
  | none => false
  | some s => pyTruthy s

/-- The ids of the category options offered by the `#filter-options`
`OptionList` (browser.py lines 235-242). -/
inductive FilterId
  | all
  | starred
  | owned
  | forked
  | issues
deriving Repr, DecidableEq

/-- The search predicate applied by `filter_repositories` when
`search_query` is non-empty (browser.py lines 360-368): the query matches a
repo when it occurs in the lowercased name, or in the lowercased description
or language when those are truthy. -/
def matchesSearch (search_query : String) (repo : GitHubRepo) : Bool :=
  pyIn search_query (pyLower repo.name)
    || (match repo.description with
        | some d => pyTruthy d && pyIn search_query (pyLower d)
        | none => false)
    || (match repo.language with
        | some l => pyTruthy l && pyIn search_query (pyLower l)
        | none => false)

/-- The category branch of `RepositoryBrowser.filter_repositories`
(browser.py lines 370-384): `highlighted = none` models either no highlighted
option or `get_option_at_index` returning `None`; the `all` id falls through
every branch and filters nothing. -/
def filterByCategory (highlighted : Option FilterId) (filtered : List GitHubRepo) :
    List GitHubRepo :=
  match highlighted with
  | none => filtered
  | some FilterId.all => filtered
  | some FilterId.starred => filtered.filter (fun repo => getattr_starred repo)
  | some FilterId.owned => filtered.filter (fun repo => !repo.fork)
  | some FilterId.forked => filtered.filter (fun repo => repo.fork)
  | some FilterId.issues => filtered.filter (fun repo => repo.open_issues_count > 0)

/-- The category predicate exactly as the spec words it (§4.2): `starred` →
`record.starred == true` (read through the `getattr` default), `owned` →
not a fork, `forked` → a fork, `has_issues` → positive open-issue count,
`all` (or nothing highlighted) → no constraint. -/
def matchesCategory : Option FilterId → GitHubRepo → Bool
  | none, _ => true
  | some FilterId.all, _ => true
  | some FilterId.starred, repo => getattr_starred repo
  | some FilterId.owned, repo => !repo.fork
  | some FilterId.forked, repo => repo.fork
  | some FilterId.issues, repo => repo.open_issues_count > 0

/-- The case-insensitive substring predicate exactly as the spec words it
(§4.2): the query matches when its lowercasing occurs in the lowercased
name, or in the lowercased description or language when those are set and
non-empty. -/
def ciMatches (query : String) (repo : GitHubRepo) : Bool :=
  pyIn (pyLower query) (pyLower repo.name)
    || (match repo.description with
        | some d => pyTruthy d && pyIn (pyLower query) (pyLower d)
        | none => false)
    || (match repo.language with
        | some l => pyTruthy l && pyIn (pyLower query) (pyLower l)
        | none => false)

/-- `RepositoryBrowser.filter_repositories` (browser.py lines 354-387) as a
pure function of its inputs: the full collection, the session's
`search_query` (already lowercased at entry, see `handle_search`), and the
highlighted category option. -/
def filter_repositories (repositories : List GitHubRepo) (search_query : String)
    (highlighted : Option FilterId) : List GitHubRepo :=
  let filtered := repositories
  let filtered :=
    if pyTruthy search_query then filtered.filter (matchesSearch search_query)
    else filtered
  filterByCategory highlighted filtered

/-- `RepositoryBrowser.handle_search` (browser.py lines 343-347): stores the
lowercased input value as `search_query` and re-filters. -/
def handle_search (repositories : List GitHubRepo) (value : String)
    (highlighted : Option FilterId) : List GitHubRepo :=
  filter_repositories repositories (pyLower value) highlighted

/-- One rendered row of the `#repo-table` `DataTable`
(`populate_table`, browser.py lines 305-313): the six displayed cells plus
the row key (`repo.full_name`). -/
structure TableRow where
  name : String
  description : String
  language : String
  stars : String
  forks : String
  updated : String
  key : String
deriving Repr, DecidableEq

/-- `RepositoryBrowser.populate_table` (browser.py lines 293-313): clears the
table and re-adds one row per filtered repository, truncating descriptions
longer than 40 characters to their first 37 characters plus `"..."`. -/
def populate_table (filtered_repositories : List GitHubRepo) : List TableRow :=
  filtered_repositories.map fun repo =>
    let description := (repo.description.getD "")
    let description :=
      if description.data.length > 40 then String.mk (description.data.take 37) ++ "..."
      else description
    -- line 303 guards `if repo.updated_at else "N/A"`, but `updated_at` is a
    -- required field of the model and datetimes are always truthy, so the
    -- `"N/A"` branch is unreachable
    let updated := repo.updated_at.strftimeDate
    { name := repo.name
      description := description
      language := repo.language.getD ""
      stars := toString repo.stargazers_count
      forks := toString repo.forks_count
      updated := updated
      key := repo.full_name }

/-- A `notify(...)` call: the message and the severity argument
(Textual's default severity is `"information"`; the error paths pass
`severity="error"`). -/
structure Notification where
  message : String
  severity : String := "information"
deriving Repr, DecidableEq

/-- The reactive state of a `RepositoryBrowser` session
(browser.py lines 215-218) together with the widget state the claims
observe: the `repo` attribute of the details pane and of the quick-actions
pane, and the rendered table rows. -/
structure BrowserState where
  repositories : List GitHubRepo
  filtered_repositories : List GitHubRepo
  selected_repo : Option GitHubRepo
  search_query : String
  details_pane_repo : Option GitHubRepo
  actions_pane_repo : Option GitHubRepo
  table_rows : List TableRow
deriving Repr, DecidableEq

/-- `RepositoryBrowser.filter_repositories` as the state transition it
performs on the session (browser.py lines 354-387): it recomputes
`filtered_repositories` from `repositories` and `search_query` and re-renders
the table via `populate_table`; it touches nothing else — in particular it
does not read or write `selected_repo` or either pane. -/
def filterRepositoriesState (highlighted : Option FilterId) (s : BrowserState) :
    BrowserState :=
  let filtered := filter_repositories s.repositories s.search_query highlighted
  { s with
    filtered_repositories := filtered
    table_rows := populate_table filtered }

/-- `RepositoryBrowser.handle_row_selected` (browser.py lines 315-331): look
the row key up among `filtered_repositories` by `full_name` (first match,
the loop breaks); when found, set `selected_repo` and update both panes;
when no repository matches, do nothing. -/
def handle_row_selected (s : BrowserState) (row_key : String) : BrowserState :=
  match s.filtered_repositories.find? (fun repo => repo.full_name == row_key) with
  | some selected_repo =>
      { s with
        selected_repo := some selected_repo
        details_pane_repo := some selected_repo
        actions_pane_repo := some selected_repo }
  | none => s

/-- The action kinds carried by a `RepositoryActionMessage`
(browser.py lines 102-142 post one of these seven strings). -/
inductive ActionKind
  | star
  | fork
  | clone
  | browser
  | issues
  | prs
  | watch
deriving Repr, DecidableEq

/-- The `action` string of the message, as interpolated into notifications
(`f"Error performing {action}: {e}"`, browser.py line 440). -/
def ActionKind.str : ActionKind → String
  | star => "star"
  | fork => "fork"
  | clone => "clone"
  | browser => "browser"
  | issues => "issues"
  | prs => "prs"
  | watch => "watch"

/-- One side-effecting call issued through the API client by the dispatcher. -/
inductive ApiCall
  | star (owner name : String)
  | unstar (owner name : String)
  | fork (owner name : String)
deriving Repr, DecidableEq

/-- Modelled from the spec: the star/unstar/fork methods of the API client.
`GitHubClient` in src (api/client.py) defines none of
`star_repository`, `unstar_repository`, `fork_repository` — the browser
calls them (browser.py lines 398, 402, 409) and the test suite supplies them
as mocks — so they are modelled from the §6 contract
(`star(owner, name)`, `unstar(owner, name)`, `fork(owner, name) -> record`)
as abstract asynchronous methods that either return or raise. -/
structure ApiClient where
  star_repository : String → String → Except String Unit
  unstar_repository : String → String → Except String Unit
  fork_repository : String → String → Except String GitHubRepo

/-- The OS-level collaborators of the dispatcher (browser.py lines 412-428):
whether `import pyperclip` succeeds, what `pyperclip.copy` does, and what
`webbrowser.open` does; each call either returns or raises. -/
structure OsServices where
  pyperclip_available : Bool
  pyperclip_copy : String → Except String Unit
  webbrowser_open : String → Except String Unit

/-- What one dispatch produced: the target record afterward (the source
mutates it in place; the embedding returns the updated record), the API
calls issued, and the notifications shown. -/
structure DispatchOutcome where
  repo : GitHubRepo
  calls : List ApiCall
  notifications : List Notification
deriving Repr, DecidableEq

/-- `RepositoryBrowser.handle_repository_action` (browser.py lines 389-440):
one branch per action kind inside a `try`, with every escaping exception
caught at the bottom and converted into the error-severity notification
`"Error performing {action}: {e}"`.  In the star branch the mutation
`repo.starred = True/False` (lines 399/403) runs after the API call and
raises on the pydantic model (see `setattr_starred`); that exception too
escapes to the boundary handler, so the success notification of lines
400/404 is unreachable.  The `clone` branch has its own inner handlers
falling back to a plain `"Clone URL: ..."` notification; the placeholder
kinds only notify. -/
def handle_repository_action (client : ApiClient) (os : OsServices)
    (action : ActionKind) (repo : GitHubRepo) : DispatchOutcome :=
  match action with
  | ActionKind.star =>
      if getattr_starred repo then
        match client.unstar_repository repo.owner.login repo.name with
        | Except.ok _ =>
            -- line 399: `repo.starred = False`
            match setattr_starred repo false with
            | Except.ok annotated =>
                { repo := annotated
                  calls := [ApiCall.unstar repo.owner.login repo.name]
                  notifications := [{ message := "Unstarred " ++ repo.full_name }] }
            | Except.error e =>
                { repo := repo
                  calls := [ApiCall.unstar repo.owner.login repo.name]
                  notifications :=
                    [{ message := "Error performing star: " ++ e, severity := "error" }] }
        | Except.error e =>
            { repo := repo
              calls := [ApiCall.unstar repo.owner.login repo.name]
              notifications :=
                [{ message := "Error performing star: " ++ e, severity := "error" }] }
      else
        match client.star_repository repo.owner.login repo.name with
        | Except.ok _ =>
            -- line 403: `repo.starred = True`
            match setattr_starred repo true with
            | Except.ok annotated =>
                { repo := annotated
                  calls := [ApiCall.star repo.owner.login repo.name]
                  notifications := [{ message := "Starred " ++ repo.full_name }] }
            | Except.error e =>
                { repo := repo
                  calls := [ApiCall.star repo.owner.login repo.name]
                  notifications :=
                    [{ message := "Error performing star: " ++ e, severity := "error" }] }
        | Except.error e =>
            { repo := repo
              calls := [ApiCall.star repo.owner.login repo.name]
              notifications :=
                [{ message := "Error performing star: " ++ e, severity := "error" }] }
  | ActionKind.fork =>
      match client.fork_repository repo.owner.login repo.name with
      | Except.ok forked_repo =>
          { repo := repo
            calls := [ApiCall.fork repo.owner.login repo.name]
            notifications :=
              [{ message := "Forked " ++ repo.full_name ++ " to " ++ forked_repo.full_name }] }
      | Except.error e =>
          { repo := repo
            calls := [ApiCall.fork repo.owner.login repo.name]
            notifications :=
              [{ message := "Error performing fork: " ++ e, severity := "error" }] }
  | ActionKind.clone =>
      if os.pyperclip_available then
        match os.pyperclip_copy repo.clone_url with
        | Except.ok _ =>
            { repo := repo
              calls := []
              notifications :=
                [{ message := "Copied clone URL to clipboard: " ++ repo.clone_url }] }
        | Except.error _ =>
            -- inner `except Exception` (browser.py lines 421-422)
            { repo := repo
              calls := []
              notifications := [{ message := "Clone URL: " ++ repo.clone_url }] }
      else
        -- inner `except ImportError` (browser.py lines 419-420)
        { repo := repo
          calls := []
          notifications := [{ message := "Clone URL: " ++ repo.clone_url }] }
  | ActionKind.browser =>
      match os.webbrowser_open repo.html_url with
      | Except.ok _ =>
          { repo := repo
            calls := []
            notifications := [{ message := "Opened " ++ repo.full_name ++ " in browser" }] }
      | Except.error e =>
          { repo := repo
            calls := []
            notifications :=
              [{ message := "Error performing browser: " ++ e, severity := "error" }] }
  | ActionKind.issues =>
      { repo := repo
        calls := []
        notifications :=
          [{ message := "Viewing issues for " ++ repo.full_name ++ " (feature coming soon)" }] }
  | ActionKind.prs =>
      { repo := repo
        calls := []
        notifications :=
          [{ message := "Viewing pull requests for " ++ repo.full_name ++ " (feature coming soon)" }] }
  | ActionKind.watch =>
      { repo := repo
        calls := []
        notifications :=
          [{ message := "Watch/unwatch for " ++ repo.full_name ++ " (feature coming soon)" }] }

/-- The API calls `load_repositories` awaits (browser.py lines 268-284), as
oracles that either return or raise.  `get_user_repos` and
`get_starred_repos` are `GitHubClient` methods (api/client.py lines 173 and
134).  Modelled from the spec: `get_authenticated_user` — the browser calls
it on the no-username path (browser.py line 278) but `GitHubClient` defines
no such method (its closest is `get_user`); it is modelled from the §6
contract `resolve_authenticated_login()` as returning the authenticated
user or raising. -/
structure LoaderApi where
  get_authenticated_user : Except String GitHubUser
  get_user_repos : String → Except String (List GitHubRepo)
  get_starred_repos : String → Except String (List GitHubRepo)

/-- The body of the loader's annotation loop, one `setattr` per fetched
repo: the first assignment raises (see `setattr_starred`), so the loop
succeeds only when it runs zero times. -/
def annotateLoop (starred_names : List String) :
    List GitHubRepo → Except String (List GitHubRepo)
  | [] => Except.ok []
  | repo :: rest =>
      match setattr_starred repo (starred_names.contains repo.full_name) with
      | Except.error e => Except.error e
      | Except.ok annotated =>
          match annotateLoop starred_names rest with
          | Except.error e => Except.error e
          | Except.ok rest' => Except.ok (annotated :: rest')

/-- The annotation step of the loader (browser.py lines 273-275 / 282-284):
build the set of starred full names and set each fetched repo's `starred`
annotation to membership of its full name in that set.  On the pydantic
model the assignment raises for the first repo, so annotation succeeds only
for an empty fetched list. -/
def annotateStarred (repos starred : List GitHubRepo) :
    Except String (List GitHubRepo) :=
  let starred_names := starred.map (fun repo => repo.full_name)
  annotateLoop starred_names repos

/-- The fetch-and-annotate part of `load_repositories`: everything up to and
including the annotation loops, short-circuiting at the first raising await
exactly as the Python control flow does. -/
def loadResult (api : LoaderApi) (username : Option String) :
    Except String (List GitHubRepo) :=
  match username with
  | some u =>
      match api.get_user_repos u with
      | Except.error e => Except.error e
      | Except.ok repos =>
          match api.get_starred_repos u with
          | Except.error e => Except.error e
          | Except.ok starred => annotateStarred repos starred
  | none =>
      match api.get_authenticated_user with
      | Except.error e => Except.error e
      | Except.ok user =>
          match api.get_user_repos user.login with
          | Except.error e => Except.error e
          | Except.ok repos =>
              match api.get_starred_repos user.login with
              | Except.error e => Except.error e
              | Except.ok starred => annotateStarred repos starred

/-- `RepositoryBrowser.load_repositories` (browser.py lines 264-291) as a
state transition: on success the session's `repositories` and
`filtered_repositories` are both replaced by the annotated result and the
table is re-rendered (`populate_table`, line 288); on any caught exception
the session state is untouched and exactly one error-severity notification
is appended (line 291).  `notifications` accumulates every `notify` call of
the session. -/
def load_repositories (api : LoaderApi) (username : Option String)
    (s : BrowserState) (notifications : List Notification) :
    BrowserState × List Notification :=
  match loadResult api username with
  | Except.ok repos =>
      ({ s with
          repositories := repos
          filtered_repositories := repos
          table_rows := populate_table repos },
        notifications)
  | Except.error e =>
      (s, notifications ++
        [{ message := "Error loading repositories: " ++ e, severity := "error" }])

/-! ### Load supersession

`load_repositories` is decorated `@work(exclusive=True)` (browser.py line
264): starting a new load (on mount, or via `action_refresh`, lines 442-445)
cancels any in-flight one.  The transition system below models one session's
loads under Textual's single-threaded event loop: a load suspends at each of
its awaits and commits its result in one synchronous step after the last
await (lines 286-288 contain no further suspension point, so they are
atomic); a cancelled load never runs again.  Because starting a load cancels
the in-flight one, at most one load is ever runnable, and it is always the
most recently started one. -/

/-- An in-flight `load_repositories` worker: its generation (the how-many-th
load started in this session), the number of awaits it still has to pass
(two with a username, three without), and the annotated list its awaits will
produce. -/
structure InflightLoad where
  gen : Nat
  awaitsLeft : Nat
  result : List GitHubRepo
deriving Repr, DecidableEq

/-- The session as seen by the load machinery: the generation of the most
recently started load, the in-flight worker if any (`@work(exclusive=True)`
keeps at most one alive), the repository state, and the generation whose
result was last applied. -/
structure LoadSys where
  curGen : Nat
  inflight : Option InflightLoad
  repositories : List GitHubRepo
  filtered_repositories : List GitHubRepo
  appliedGen : Option Nat
deriving Repr, DecidableEq

/-- The session before any load: no generation started, nothing in flight,
empty collections. -/
def LoadSys.init : LoadSys :=
  { curGen := 0
    inflight := none
    repositories := []
    filtered_repositories := []
    appliedGen := none }

/-- Events of the load transition system: `start awaits result` is a call of
`load_repositories` (mount or refresh) whose awaits will resolve to
`result`; `step` resolves the in-flight load's next await, or — when none
are left — runs its synchronous commit (browser.py lines 286-288). -/
inductive LoadEvent
  | start (awaits : Nat) (result : List GitHubRepo)
  | step
deriving Repr, DecidableEq

/-- One transition.  `start` increments the generation and replaces any
in-flight worker (Textual cancels the superseded exclusive worker; a
cancelled coroutine never resumes, so it simply disappears from the state).
`step` advances the in-flight worker: with awaits remaining it passes one;
with none remaining it atomically applies its result to the session and
finishes. -/
def applyEvent (s : LoadSys) : LoadEvent → LoadSys
  | LoadEvent.start awaits result =>
      { s with
        curGen := s.curGen + 1
        inflight := some { gen := s.curGen + 1, awaitsLeft := awaits, result := result } }
  | LoadEvent.step =>
      match s.inflight with
      | none => s
      | some l =>
          match l.awaitsLeft with
          | n + 1 => { s with inflight := some { l with awaitsLeft := n } }
          | 0 =>
              { s with
                inflight := none
                repositories := l.result
                filtered_repositories := l.result
                appliedGen := some l.gen }

/-- Run a list of events (one interleaving) from a state. -/
def runEvents (s : LoadSys) (events : List LoadEvent) : LoadSys :=
  events.foldl applyEvent s

/-- The exclusivity invariant: whatever is in flight is the most recently
started load. -/
def LoadSysInv (s : LoadSys) : Prop :=
  ∀ l, s.inflight = some l → l.gen = s.curGen

/-- `RepositoryDetailsPane.update_display` needs a license object with a
`name` attribute (`repo.license.name`, browser.py line 53). -/
structure License where
  name : String
deriving Repr, DecidableEq

/-- The attribute read `repo.license` at browser.py line 53.  `GitHubRepo`
(models.py lines 32-56) declares no `license` field, and reading an
undeclared attribute of a record raises `AttributeError`, so the read always
fails. -/
def attrLicense (_ : GitHubRepo) : Except String (Option License) :=
  Except.error "AttributeError: 'GitHubRepo' object has no attribute 'license'"

/-- The attribute read `repo.homepage` at browser.py line 57.  `GitHubRepo`
declares no `homepage` field either, so this read would also raise. -/
def attrHomepage (_ : GitHubRepo) : Except String (Option String) :=
  Except.error "AttributeError: 'GitHubRepo' object has no attribute 'homepage'"

/-- `RepositoryDetailsPane.update_display` with a repository set
(browser.py lines 42-70), line by line; attribute reads that the data model
cannot serve surface as `Except.error` (the Python `AttributeError` —
nothing in `update_display` catches it). -/
def update_display (repo : GitHubRepo) : Except String String := do
  let details := ["[bold cyan]" ++ repo.full_name ++ "[/bold cyan]"]
  let details :=
    if truthyStr repo.description then details ++ ["\n" ++ repo.description.getD ""]
    else details
  let language := if truthyStr repo.language then repo.language.getD "" else "N/A"
  let details := details ++ ["\n[bold]Language:[/bold] " ++ language]
  let details := details ++ ["[bold]Stars:[/bold] " ++ toString repo.stargazers_count]
  let details := details ++ ["[bold]Forks:[/bold] " ++ toString repo.forks_count]
  let details := details ++ ["[bold]Issues:[/bold] " ++ toString repo.open_issues_count]
  -- line 53: `repo.license.name if repo.license else 'N/A'`
  let licenseVal ← attrLicense repo
  let details := details ++
    ["[bold]License:[/bold] " ++ (match licenseVal with
      | some l => l.name
      | none => "N/A")]
  let details := details ++
    ["[bold]Private:[/bold] " ++ (if repo.private_flag then "Yes" else "No")]
  let details := details ++
    ["[bold]Fork:[/bold] " ++ (if repo.fork then "Yes" else "No")]
  -- line 57: `if repo.homepage:`
  let homepageVal ← attrHomepage repo
  let details :=
    if truthyStr homepageVal then
      details ++ ["[bold]Homepage:[/bold] " ++ homepageVal.getD ""]
    else details
  let details := details ++ ["[bold]Clone URL:[/bold] " ++ repo.clone_url]
  let details := details ++ ["[bold]HTML URL:[/bold] " ++ repo.html_url]
  -- lines 63-66 guard on `if repo.created_at:` / `if repo.updated_at:`, but
  -- both are required fields and datetimes are always truthy
  let details := details ++
    ["[bold]Created:[/bold] " ++ repo.created_at.strftimeFull]
  let details := details ++
    ["[bold]Updated:[/bold] " ++ repo.updated_at.strftimeFull]
  let details :=
    match repo.pushed_at with
    | some d => details ++ ["[bold]Last Push:[/bold] " ++ d.strftimeFull]
    | none => details
  pure (String.intercalate "\n" details)

/-! ### Concrete fixtures

The sample records of the repository's own test suite
(`tests/test_tui_browser.py`, fixtures `sample_repo` / `sample_repos`),
used as concrete inputs for witnesses and counterexamples. -/

/-- The `sample_repo` fixture's owner (`testowner`). -/
def sampleOwner : GitHubUser :=
  { id := 123
    login := "testowner"
    avatar_url := "https://github.com/testowner.png"
    html_url := "https://github.com/testowner" }

/-- The `sample_repo` fixture: `testowner/test-repo`, Python, 42 stars; the
`starred` annotation has never been set on it. -/
def sampleRepo : GitHubRepo :=
  { id := 456
    name := "test-repo"
    full_name := "testowner/test-repo"
    description := some "A test repository"
    private_flag := false
    fork := false
    language := some "Python"
    stargazers_count := 42
    watchers_count := 42
    forks_count := 7
    open_issues_count := 3
    size := 1024
    default_branch := "main"
    created_at := { year := 2023, month := 1, day := 1, hour := 0, minute := 0, second := 0 }
    updated_at := { year := 2023, month := 12, day := 1, hour := 0, minute := 0, second := 0 }
    pushed_at := some { year := 2023, month := 11, day := 30, hour := 0, minute := 0, second := 0 }
    html_url := "https://github.com/testowner/test-repo"
    clone_url := "https://github.com/testowner/test-repo.git"
    ssh_url := "git@github.com:testowner/test-repo.git"
    owner := sampleOwner }

/-- The second fixture of `sample_repos`: `testowner2/another-repo`, made a
JavaScript fork with no open issues here so that the category filters
distinguish the two fixtures; its `starred` annotation is set to `false`. -/
def sampleRepo2 : GitHubRepo :=
  { id := 457
    name := "another-repo"
    full_name := "testowner2/another-repo"
    description := some "Another repository"
    private_flag := true
    fork := true
    language := some "JavaScript"
    stargazers_count := 5
    watchers_count := 5
    forks_count := 1
    open_issues_count := 0
    size := 2048
    default_branch := "main"
    created_at := { year := 2023, month := 2, day := 1, hour := 0, minute := 0, second := 0 }
    updated_at := { year := 2023, month := 12, day := 2, hour := 0, minute := 0, second := 0 }
    pushed_at := none
    html_url := "https://github.com/testowner2/another-repo"
    clone_url := "https://github.com/testowner2/another-repo.git"
    ssh_url := "git@github.com:testowner2/another-repo.git"
    owner :=
      { id := 124
        login := "testowner2"
        avatar_url := "https://github.com/testowner2.png"
        html_url := "https://github.com/testowner2" }
    starred := some false }

/-- A session state in which `testowner/test-repo` is loaded, selected and
shown in both panes, and the search query has just become `"zzz"` (which
matches no field of the record). -/
def zzzSearchState : BrowserState :=
  { repositories := [sampleRepo]
    filtered_repositories := [sampleRepo]
    selected_repo := some sampleRepo
    search_query := "zzz"
    details_pane_repo := some sampleRepo
    actions_pane_repo := some sampleRepo
    table_rows := populate_table [sampleRepo] }

/-- An API client whose calls all succeed (a star/unstar returns `None`, a
fork returns the fixture record). -/
def okClient : ApiClient :=
  { star_repository := fun _ _ => Except.ok ()
    unstar_repository := fun _ _ => Except.ok ()
    fork_repository := fun _ _ => Except.ok sampleRepo }

/-- An API client whose calls all raise `"boom"`. -/
def boomClient : ApiClient :=
  { star_repository := fun _ _ => Except.error "boom"
    unstar_repository := fun _ _ => Except.error "boom"
    fork_repository := fun _ _ => Except.error "boom" }

/-- OS services on which every call succeeds. -/
def okOs : OsServices :=
  { pyperclip_available := true
    pyperclip_copy := fun _ => Except.ok ()
    webbrowser_open := fun _ => Except.ok () }

/-- OS services on which the clipboard and the URL opener raise `"boom"`. -/
def boomOs : OsServices :=
  { pyperclip_available := true
    pyperclip_copy := fun _ => Except.error "boom"
    webbrowser_open := fun _ => Except.error "boom" }

/-- A loader API on which every call raises `"API Error"`. -/
def boomLoaderApi : LoaderApi :=
  { get_authenticated_user := Except.error "API Error"
    get_user_repos := fun _ => Except.error "API Error"
    get_starred_repos := fun _ => Except.error "API Error" }

/-! ### Lemmas about the filter engine -/

/-- Membership in the category stage is membership plus the category
predicate. -/
theorem mem_filterByCategory {highlighted : Option FilterId} {l : List GitHubRepo}
    {repo : GitHubRepo} :
    repo ∈ filterByCategory highlighted l ↔
      repo ∈ l ∧ matchesCategory highlighted repo = true := by
  cases highlighted with
  | none => simp [filterByCategory, matchesCategory]
  | some fid =>
      cases fid <;>
        simp [filterByCategory, matchesCategory, List.mem_filter]

/-- The category stage of the filter returns a sublist. -/
theorem filterByCategory_sublist (highlighted : Option FilterId)
    (l : List GitHubRepo) : (filterByCategory highlighted l).Sublist l := by
  cases highlighted with
  | none => exact List.Sublist.refl l
  | some fid => cases fid <;> first
      | exact List.Sublist.refl l
      | exact List.filter_sublist l

/-- Membership in the filtered output is membership in the input plus the
search predicate (trivial for the empty query) plus the category
predicate — the two stages compose by conjunction. -/
theorem mem_filter_repositories {repositories : List GitHubRepo}
    {search_query : String} {highlighted : Option FilterId} {repo : GitHubRepo} :
    repo ∈ filter_repositories repositories search_query highlighted ↔
      repo ∈ repositories ∧ (!pyTruthy search_query || matchesSearch search_query repo) = true
        ∧ matchesCategory highlighted repo = true := by
  unfold filter_repositories
  by_cases hq : pyTruthy search_query
  · simp [hq, mem_filterByCategory, List.mem_filter, and_assoc]
  · simp [hq, mem_filterByCategory]

/-- The whole filter returns a sublist of the full collection. -/
theorem filter_repositories_sublist (repositories : List GitHubRepo)
    (search_query : String) (highlighted : Option FilterId) :
    (filter_repositories repositories search_query highlighted).Sublist repositories := by
  unfold filter_repositories
  by_cases hq : pyTruthy search_query
  · simp only [hq, if_pos]
    exact (filterByCategory_sublist _ _).trans (List.filter_sublist _)
  · simp only [hq, if_neg, Bool.false_eq_true, not_false_iff]
    exact filterByCategory_sublist _ _

/-- Lowercasing a query first is what `matchesSearch` sees after
`handle_search`; on that entry path the search stage is exactly the spec's
case-insensitive predicate. -/
theorem matchesSearch_pyLower (query : String) (repo : GitHubRepo) :
    matchesSearch (pyLower query) repo = ciMatches query repo := rfl

/-- `pyLower` preserves emptiness, hence Python truthiness. -/
theorem pyTruthy_pyLower (s : String) : pyTruthy (pyLower s) = pyTruthy s := by
  cases s with
  | mk data => cases data <;> simp [pyTruthy, pyLower]

/-! ### Lemmas about the load transition system -/

/-- `applyEvent` computations, one per transition shape. -/
theorem applyEvent_start (s : LoadSys) (awaits : Nat) (result : List GitHubRepo) :
    applyEvent s (LoadEvent.start awaits result) =
      { s with
        curGen := s.curGen + 1
        inflight := some { gen := s.curGen + 1, awaitsLeft := awaits, result := result } } :=
  rfl

theorem applyEvent_step_none {s : LoadSys} (hinf : s.inflight = none) :
    applyEvent s LoadEvent.step = s := by
  simp [applyEvent, hinf]

theorem applyEvent_step_pending {s : LoadSys} {l : InflightLoad} {n : Nat}
    (hinf : s.inflight = some l) (ha : l.awaitsLeft = n + 1) :
    applyEvent s LoadEvent.step = { s with inflight := some { l with awaitsLeft := n } } := by
  simp [applyEvent, hinf, ha]

theorem applyEvent_step_commit {s : LoadSys} {l : InflightLoad}
    (hinf : s.inflight = some l) (ha : l.awaitsLeft = 0) :
    applyEvent s LoadEvent.step =
      { s with
        inflight := none
        repositories := l.result
        filtered_repositories := l.result
        appliedGen := some l.gen } := by
  simp [applyEvent, hinf, ha]

/-- Every transition preserves the exclusivity invariant: whatever is in
flight is the most recently started load. -/
theorem applyEvent_inv {s : LoadSys} (hs : LoadSysInv s) (e : LoadEvent) :
    LoadSysInv (applyEvent s e) := by
  cases e with
  | start awaits result =>
      intro l hl
      rw [applyEvent_start] at hl ⊢
      simp at hl
      simp [← hl]
  | step =>
      cases hinf : s.inflight with
      | none =>
          rw [applyEvent_step_none hinf]
          exact hs
      | some l0 =>
          cases ha : l0.awaitsLeft with
          | zero =>
              rw [applyEvent_step_commit hinf ha]
              intro l hl
              simp at hl
          | succ n =>
              rw [applyEvent_step_pending hinf ha]
              intro l hl
              simp at hl
              rw [← hl]
              exact hs l0 hinf

/-- Runs decompose along `cons` and `append`. -/
theorem runEvents_cons (s : LoadSys) (e : LoadEvent) (tr : List LoadEvent) :
    runEvents s (e :: tr) = runEvents (applyEvent s e) tr := rfl

theorem runEvents_append (s : LoadSys) (tr₁ tr₂ : List LoadEvent) :
    runEvents s (tr₁ ++ tr₂) = runEvents (runEvents s tr₁) tr₂ := by
  simp [runEvents, List.foldl_append]

/-- The exclusivity invariant holds along every run. -/
theorem runEvents_inv {s : LoadSys} (hs : LoadSysInv s) (tr : List LoadEvent) :
    LoadSysInv (runEvents s tr) := by
  induction tr generalizing s with
  | nil => exact hs
  | cons e tr ih => exact ih (applyEvent_inv hs e)

/-- The initial session satisfies the exclusivity invariant. -/
theorem init_inv : LoadSysInv LoadSys.init := by
  intro l hl
  simp [LoadSys.init] at hl

/-- Running steps only, while enough awaits remain, leaves the session
untouched and merely advances the in-flight load. -/
theorem runEvents_steps_pending (k : Nat) (s : LoadSys) (l : InflightLoad)
    (hinf : s.inflight = some l) (hk : k ≤ l.awaitsLeft) :
    runEvents s (List.replicate k LoadEvent.step) =
      { s with inflight := some { l with awaitsLeft := l.awaitsLeft - k } } := by
  induction k generalizing s l with
  | zero =>
      cases s
      cases l
      simp_all [runEvents]
  | succ k ih =>
      obtain ⟨m, hm⟩ : ∃ m, l.awaitsLeft = m + 1 := ⟨l.awaitsLeft - 1, by omega⟩
      rw [List.replicate_succ, runEvents_cons, applyEvent_step_pending hinf hm,
        ih _ { l with awaitsLeft := m } rfl (by simp; omega)]
      have hsub : m - k = l.awaitsLeft - (k + 1) := by omega
      simp [hsub]

/-- Steps with nothing in flight change nothing. -/
theorem runEvents_steps_none (k : Nat) (s : LoadSys) (hinf : s.inflight = none) :
    runEvents s (List.replicate k LoadEvent.step) = s := by
  induction k with
  | zero => rfl
  | succ k ih => rw [List.replicate_succ, runEvents_cons, applyEvent_step_none hinf, ih]

/-- Running strictly more steps than the in-flight load has awaits left
commits its result (and further steps change nothing). -/
theorem runEvents_steps_commit (k : Nat) (s : LoadSys) (l : InflightLoad)
    (hinf : s.inflight = some l) (hk : l.awaitsLeft < k) :
    runEvents s (List.replicate k LoadEvent.step) =
      { s with
        inflight := none
        repositories := l.result
        filtered_repositories := l.result
        appliedGen := some l.gen } := by
  induction k generalizing s l with
  | zero => omega
  | succ k ih =>
      rw [List.replicate_succ, runEvents_cons]
      cases ha : l.awaitsLeft with
      | zero =>
          rw [applyEvent_step_commit hinf ha]
          exact runEvents_steps_none _ _ rfl
      | succ n =>
          rw [applyEvent_step_pending hinf ha,
            ih _ { l with awaitsLeft := n } rfl (by simp; omega)]

/-- Whenever a transition applies a load's result to the session, the load
applied is the most recently started one: a superseded load's completion is
never applied. -/
theorem applyEvent_applies_latest {s : LoadSys} (hs : LoadSysInv s) (e : LoadEvent)
    (hchange : (applyEvent s e).appliedGen ≠ s.appliedGen) :
    (applyEvent s e).appliedGen = some s.curGen := by
  cases e with
  | start awaits result => exact absurd rfl hchange
  | step =>
      cases hinf : s.inflight with
      | none =>
          rw [applyEvent_step_none hinf] at hchange
          exact absurd rfl hchange
      | some l0 =>
          cases ha : l0.awaitsLeft with
          | zero =>
              rw [applyEvent_step_commit hinf ha]
              simp [hs l0 hinf]
          | succ n =>
              rw [applyEvent_step_pending hinf ha] at hchange
              exact absurd rfl hchange

/-- The two-load refresh scenario: a first load with `a₁` awaits starts,
some of its awaits resolve (but it is still in flight), a second load
starts — superseding the first — and then events only advance loads.  In
every such interleaving the session ends holding either its initial (empty)
collections with nothing applied, or the second load's result; the first
load's result is never applied. -/
theorem two_load_scenario (a₁ : Nat) (r₁ : List GitHubRepo) (mid : List LoadEvent)
    (a₂ : Nat) (r₂ : List GitHubRepo) (post : List LoadEvent)
    (hmid : mid = List.replicate mid.length LoadEvent.step)
    (hpost : post = List.replicate post.length LoadEvent.step)
    (hfirst_in_flight : mid.length ≤ a₁) :
    (runEvents LoadSys.init
        (LoadEvent.start a₁ r₁ :: (mid ++ LoadEvent.start a₂ r₂ :: post))).repositories = []
      ∧ (runEvents LoadSys.init
          (LoadEvent.start a₁ r₁ :: (mid ++ LoadEvent.start a₂ r₂ :: post))).appliedGen = none
    ∨ (runEvents LoadSys.init
        (LoadEvent.start a₁ r₁ :: (mid ++ LoadEvent.start a₂ r₂ :: post))).repositories = r₂
      ∧ (runEvents LoadSys.init
          (LoadEvent.start a₁ r₁ :: (mid ++ LoadEvent.start a₂ r₂ :: post))).appliedGen = some 2 := by
  rw [runEvents_cons, applyEvent_start, runEvents_append]
  rw [hmid, runEvents_steps_pending mid.length _
      { gen := LoadSys.init.curGen + 1, awaitsLeft := a₁, result := r₁ } rfl
      (by simpa using hfirst_in_flight)]
  rw [runEvents_cons, applyEvent_start]
  rcases le_or_lt post.length a₂ with hle | hlt
  · left
    rw [hpost, runEvents_steps_pending post.length _ _ rfl (by simpa using hle)]
    constructor <;> rfl
  · right
    rw [hpost, runEvents_steps_commit post.length _ _ rfl (by simpa using hlt)]
    constructor
    · rfl
    · simp [LoadSys.init]

/-! ### The claims -/

/-- C2 (counterexample): the claimed selection clamp does not exist.  In a
session where `testowner/test-repo` is loaded and selected, re-synchronizing
after the search query became `"zzz"` empties the filtered collection, yet
the record stays selected and both panes keep presenting it — `selected_repo`
is neither cleared nor clamped, and the Detail/Actions panes are not
cleared. -/
theorem c2_counterexample :
    (filterRepositoriesState none zzzSearchState).selected_repo = some sampleRepo
      ∧ sampleRepo ∉ (filterRepositoriesState none zzzSearchState).filtered_repositories
      ∧ (filterRepositoriesState none zzzSearchState).details_pane_repo = some sampleRepo
      ∧ (filterRepositoriesState none zzzSearchState).actions_pane_repo = some sampleRepo := by
  refine ⟨rfl, ?_, rfl, rfl⟩
  decide

/-- C2 (amended): after every re-synchronization of the rendered table with
a new filtered collection, the selection and the Detail/Actions panes are
exactly what they were before the re-synchronization — `filter_repositories`
only replaces `filtered_repositories` and re-renders the table, so a
previously selected record that is no longer present in the new filtered
collection remains selected and the panes continue to present it. -/
theorem c2_sync_preserves_selection (s : BrowserState) (highlighted : Option FilterId) :
    (filterRepositoriesState highlighted s).selected_repo = s.selected_repo
      ∧ (filterRepositoriesState highlighted s).details_pane_repo = s.details_pane_repo
      ∧ (filterRepositoriesState highlighted s).actions_pane_repo = s.actions_pane_repo
      ∧ (filterRepositoriesState highlighted s).repositories = s.repositories
      ∧ (filterRepositoriesState highlighted s).filtered_repositories =
          filter_repositories s.repositories s.search_query highlighted
      ∧ (filterRepositoriesState highlighted s).table_rows =
          populate_table (filter_repositories s.repositories s.search_query highlighted) :=
  ⟨rfl, rfl, rfl, rfl, rfl, rfl⟩

/-- C4: membership in the filtered output.  Through the search entry point
(which lowercases the query) a record is kept iff it passes the
case-insensitive substring predicate — the query occurs in the lowercased
name, description or language, any field suffices, and the empty query
passes everything — and the category predicate (`starred` →
annotation true, `owned` → not a fork, `forked` → a fork, `has_issues` →
positive open-issue count, `all`/nothing highlighted → no constraint);
the second conjunct states the same for `filter_repositories` on the
stored (already lowercased) query. -/
theorem c4_filter_membership :
    ∀ (C : List GitHubRepo) (q : String) (c : Option FilterId) (r : GitHubRepo),
      (r ∈ handle_search C q c ↔
        r ∈ C ∧ (!pyTruthy q || ciMatches q r) = true ∧ matchesCategory c r = true)
      ∧ (r ∈ filter_repositories C q c ↔
        r ∈ C ∧ (!pyTruthy q || matchesSearch q r) = true ∧ matchesCategory c r = true) := by
  intro C q c r
  refine ⟨?_, mem_filter_repositories⟩
  rw [handle_search]
  rw [show (!pyTruthy q || ciMatches q r) = (!pyTruthy (pyLower q) || matchesSearch (pyLower q) r) by
    rw [pyTruthy_pyLower, matchesSearch_pyLower]]
  exact mem_filter_repositories

/-- C4 (witness): on the fixture collection the mixed-case query
`"Python"` keeps `testowner/test-repo` (its language matches
case-insensitively). -/
theorem c4_witness :
    sampleRepo ∈ handle_search [sampleRepo, sampleRepo2] "Python" none :=
  (c4_filter_membership [sampleRepo, sampleRepo2] "Python" none sampleRepo).1.mpr
    (by refine ⟨by decide, by decide, rfl⟩)

/-- C7: the filtered output is a sublist of the input collection — every
element of it appears in `C`, in the same relative order, and its length is
at most `len(C)`.  Totality and determinism hold by construction: the
embedding of `filter_repositories` is a pure total function, faithful to the
source, whose output depends only on its three inputs. -/
theorem c7_filter_subsequence :
    ∀ (C : List GitHubRepo) (q : String) (c : Option FilterId),
      (filter_repositories C q c).Sublist C
        ∧ (filter_repositories C q c).length ≤ C.length :=
  fun C q c =>
    ⟨filter_repositories_sublist C q c, (filter_repositories_sublist C q c).length_le⟩

/-- C9: reads of the `starred` annotation are total.  For a record whose
annotation was never set (`starred = none`), the `getattr` read yields
`False`, the starred-category filter excludes the record, and a star
dispatch issues the star call (never the unstar call); no operation fails on
the missing annotation — every reader goes through the defaulting
`getattr`. -/
theorem c9_starred_annotation_total :
    ∀ (C : List GitHubRepo) (q : String) (client : ApiClient) (os : OsServices)
      (repo : GitHubRepo),
      repo.starred = none →
        getattr_starred repo = false
          ∧ repo ∉ filter_repositories C q (some FilterId.starred)
          ∧ (handle_repository_action client os ActionKind.star repo).calls =
              [ApiCall.star repo.owner.login repo.name] := by
  intro C q client os repo h
  have hg : getattr_starred repo = false := by simp [getattr_starred, h]
  refine ⟨hg, ?_, ?_⟩
  · intro hmem
    have hcat := (mem_filter_repositories.mp hmem).2.2
    rw [matchesCategory, hg] at hcat
    exact Bool.false_ne_true hcat
  · cases hc : client.star_repository repo.owner.login repo.name <;>
      simp [handle_repository_action, hg, hc, setattr_starred]

/-- C9 (witness): `testowner/test-repo` has never had its annotation set;
its `getattr` read is `False`, the starred filter drops it, and a star
dispatch issues exactly the star call for it. -/
theorem c9_witness :
    getattr_starred sampleRepo = false
      ∧ sampleRepo ∉ filter_repositories [sampleRepo] "" (some FilterId.starred)
      ∧ (handle_repository_action okClient okOs ActionKind.star sampleRepo).calls =
          [ApiCall.star "testowner" "test-repo"] :=
  c9_starred_annotation_total [sampleRepo] "" okClient okOs sampleRepo rfl

/-- C10: selecting a table row whose key equals no filtered record's full
name is a no-op — the whole session state, in particular the selected
record and both panes, is unchanged; a key equal to some filtered record's
full name (the first such record — the lookup stops at the first match)
updates the selection and both panes to that record and touches the
collections not at all. -/
theorem c10_row_selection :
    ∀ (s : BrowserState) (row_key : String),
      ((∀ repo ∈ s.filtered_repositories, repo.full_name ≠ row_key) →
        handle_row_selected s row_key = s)
      ∧ (∀ repo,
          s.filtered_repositories.find? (fun r => r.full_name == row_key) = some repo →
            (handle_row_selected s row_key).selected_repo = some repo
              ∧ (handle_row_selected s row_key).details_pane_repo = some repo
              ∧ (handle_row_selected s row_key).actions_pane_repo = some repo
              ∧ (handle_row_selected s row_key).repositories = s.repositories
              ∧ (handle_row_selected s row_key).filtered_repositories =
                  s.filtered_repositories) := by
  intro s row_key
  constructor
  · intro hnone
    have hfind : s.filtered_repositories.find? (fun r => r.full_name == row_key) = none := by
      rw [List.find?_eq_none]
      intro x hx
      simp [hnone x hx]
    rw [handle_row_selected, hfind]
  · intro repo hfind
    rw [handle_row_selected, hfind]
    exact ⟨rfl, rfl, rfl, rfl, rfl⟩

/-- C10 (witness): in the fixture session, the key `"nope"` matches nothing
and changes nothing, while the key `"testowner/test-repo"` selects the
fixture record. -/
theorem c10_witness :
    handle_row_selected zzzSearchState "nope" = zzzSearchState
      ∧ (handle_row_selected zzzSearchState "testowner/test-repo").selected_repo =
          some sampleRepo :=
  ⟨(c10_row_selection zzzSearchState "nope").1 (by decide),
    ((c10_row_selection zzzSearchState "testowner/test-repo").2 sampleRepo (by decide)).1⟩

/-- C3: loader failure atomicity.  Whenever the fetch-and-annotate phase
raises (first conjunct, with the remaining conjuncts showing that a failure
of any single underlying call — repository-list fetch, starred-list fetch,
or account resolution — makes it raise), the exception is caught, the
session's collections and table are left exactly as they were, and exactly
one error-severity notification is appended; the session remains usable (the
state is returned intact for further transitions). -/
theorem c3_loader_failure_atomicity :
    ∀ (api : LoaderApi) (username : Option String) (s : BrowserState)
      (notifications : List Notification) (e : String),
      (loadResult api username = Except.error e →
        load_repositories api username s notifications =
          (s, notifications ++
            [{ message := "Error loading repositories: " ++ e, severity := "error" }]))
      ∧ (∀ u, api.get_user_repos u = Except.error e →
          loadResult api (some u) = Except.error e)
      ∧ (∀ u repos, api.get_user_repos u = Except.ok repos →
          api.get_starred_repos u = Except.error e →
          loadResult api (some u) = Except.error e)
      ∧ (api.get_authenticated_user = Except.error e →
          loadResult api none = Except.error e) := by
  intro api username s notifications e
  refine ⟨?_, ?_, ?_, ?_⟩
  · intro h
    rw [load_repositories, h]
  · intro u hu
    rw [loadResult, hu]
  · intro u repos hu hstarred
    rw [loadResult, hu, hstarred]
  · intro hauth
    rw [loadResult, hauth]

/-- C3 (witness): a load over an API whose calls all raise `"API Error"`
leaves the fixture session untouched and appends the single error
notification. -/
theorem c3_witness :
    load_repositories boomLoaderApi (some "testuser") zzzSearchState [] =
      (zzzSearchState,
        [{ message := "Error loading repositories: API Error", severity := "error" }]) :=
  (c3_loader_failure_atomicity boomLoaderApi (some "testuser") zzzSearchState [] "API Error").1
    rfl

/-- C5 (code bug): the star dispatch can never flip the annotation.  The
branch issues its one API call, but the mutation that follows a successful
call — `repo.starred = True` (browser.py line 403) or `= False` (line
399) — raises `ValueError` on the pydantic model, which declares no
`starred` field and allows no extra attributes, and the boundary handler
converts that to an error notification: for every client, every target and
every call outcome the dispatch returns the target unchanged after exactly
one API call, so `starred` is never set and the `"Starred"/"Unstarred"`
notifications of lines 400/404 are unreachable — contradicting the claim
(and the repository's own `test_handle_star_action`, which asserts
`starred` becomes `True`).  The final conjunct evaluates the dispatch at
the failing input: the fixture record with an all-succeeding client. -/
theorem c5_star_never_flips :
    (∀ (client : ApiClient) (os : OsServices) (repo : GitHubRepo),
        (handle_repository_action client os ActionKind.star repo).repo = repo
          ∧ (handle_repository_action client os ActionKind.star repo).calls.length = 1)
    ∧ handle_repository_action okClient okOs ActionKind.star sampleRepo =
        { repo := sampleRepo
          calls := [ApiCall.star "testowner" "test-repo"]
          notifications :=
            [{ message :=
                "Error performing star: \"GitHubRepo\" object has no field \"starred\""
               severity := "error" }] } := by
  constructor
  · intro client os repo
    cases hg : getattr_starred repo
    · cases hc : client.star_repository repo.owner.login repo.name <;>
        simp [handle_repository_action, hg, hc, setattr_starred]
    · cases hc : client.unstar_repository repo.owner.login repo.name <;>
        simp [handle_repository_action, hg, hc, setattr_starred]
  · rfl

/-- C6 (counterexample): the failure notification does not name the target.
A failing star dispatch on `testowner/test-repo` produces exactly the
notification `"Error performing star: boom"` — error severity, naming the
action, but the target's full name occurs nowhere in it; and a clipboard
failure during a clone dispatch is not even surfaced at error severity: it
falls back to an information-severity `"Clone URL: ..."` notification. -/
theorem c6_counterexample :
    (handle_repository_action boomClient okOs ActionKind.star sampleRepo).notifications =
        [{ message := "Error performing star: boom", severity := "error" }]
      ∧ pyIn sampleRepo.full_name "Error performing star: boom" = false
      ∧ (handle_repository_action okClient boomOs ActionKind.clone sampleRepo).notifications =
        [{ message := "Clone URL: https://github.com/testowner/test-repo.git",
            severity := "information" }] := by
  refine ⟨rfl, by decide, rfl⟩

/-- C6 (amended): for every action kind whose underlying API or OS call
escapes to the dispatch boundary (star/unstar, fork, open-in-browser), the
exception is caught there and converted to exactly one error-severity
notification naming the action and carrying the exception message — but not
the target — and the target record is unchanged; the dispatch itself never
raises (the embedding is a total function into outcomes).  Clone is the
exception the source carves out: its clipboard failures are handled inside
the clone branch by one information-severity fallback notification holding
the clone URL, with the record unchanged; the placeholder kinds touch
nothing. -/
theorem c6_error_boundary :
    ∀ (client : ApiClient) (os : OsServices) (repo : GitHubRepo) (e : String),
      (getattr_starred repo = false →
        client.star_repository repo.owner.login repo.name = Except.error e →
        handle_repository_action client os ActionKind.star repo =
          { repo := repo
            calls := [ApiCall.star repo.owner.login repo.name]
            notifications :=
              [{ message := "Error performing star: " ++ e, severity := "error" }] })
      ∧ (getattr_starred repo = true →
          client.unstar_repository repo.owner.login repo.name = Except.error e →
          handle_repository_action client os ActionKind.star repo =
            { repo := repo
              calls := [ApiCall.unstar repo.owner.login repo.name]
              notifications :=
                [{ message := "Error performing star: " ++ e, severity := "error" }] })
      ∧ (client.fork_repository repo.owner.login repo.name = Except.error e →
          handle_repository_action client os ActionKind.fork repo =
            { repo := repo
              calls := [ApiCall.fork repo.owner.login repo.name]
              notifications :=
                [{ message := "Error performing fork: " ++ e, severity := "error" }] })
      ∧ (os.webbrowser_open repo.html_url = Except.error e →
          handle_repository_action client os ActionKind.browser repo =
            { repo := repo
              calls := []
              notifications :=
                [{ message := "Error performing browser: " ++ e, severity := "error" }] })
      ∧ ((handle_repository_action client os ActionKind.clone repo).repo = repo
          ∧ (handle_repository_action client os ActionKind.clone repo).notifications.length = 1)
      ∧ (handle_repository_action client os ActionKind.issues repo).repo = repo
      ∧ (handle_repository_action client os ActionKind.prs repo).repo = repo
      ∧ (handle_repository_action client os ActionKind.watch repo).repo = repo := by
  intro client os repo e
  refine ⟨?_, ?_, ?_, ?_, ⟨?_, ?_⟩, rfl, rfl, rfl⟩
  · intro hg hc
    simp [handle_repository_action, hg, hc]
  · intro hg hc
    simp [handle_repository_action, hg, hc]
  · intro hc
    simp [handle_repository_action, hc]
  · intro hc
    simp [handle_repository_action, hc]
  · by_cases hav : os.pyperclip_available
    · cases hc : os.pyperclip_copy repo.clone_url <;>
        simp [handle_repository_action, hav, hc]
    · simp [handle_repository_action, hav]
  · by_cases hav : os.pyperclip_available
    · cases hc : os.pyperclip_copy repo.clone_url <;>
        simp [handle_repository_action, hav, hc]
    · simp [handle_repository_action, hav]

/-- C6 (witness): a star dispatch through the failing client on the fixture
record leaves the record unchanged and produces the single error-severity
notification for the star action. -/
theorem c6_witness :
    handle_repository_action boomClient okOs ActionKind.star sampleRepo =
      { repo := sampleRepo
        calls := [ApiCall.star "testowner" "test-repo"]
        notifications :=
          [{ message := "Error performing star: boom", severity := "error" }] } :=
  (c6_error_boundary boomClient okOs sampleRepo "boom").1 rfl rfl

/-- C1: load supersession (latest-wins) under the exclusive-worker
semantics.  First conjunct, every interleaving: along every event trace from
the initial session, whenever a transition applies a load's result to the
session state, the load applied is the one most recently started — a
superseded load's completion is never applied after a newer load has
started.  Second conjunct, the two-load scenario: a first load starts, some
(not all) of its awaits resolve, a refresh starts a second load, and events
then only advance loads; however the remaining resolutions interleave, the
session ends either still holding its initial (empty) collections with no
load applied, or holding exactly the second load's result — the first
load's result is never applied to `repositories`/`filtered_repositories`. -/
theorem c1_load_supersession :
    (∀ (tr : List LoadEvent) (e : LoadEvent),
        (applyEvent (runEvents LoadSys.init tr) e).appliedGen ≠
          (runEvents LoadSys.init tr).appliedGen →
        (applyEvent (runEvents LoadSys.init tr) e).appliedGen =
          some (runEvents LoadSys.init tr).curGen)
    ∧ (∀ (a₁ : Nat) (r₁ : List GitHubRepo) (mid : List LoadEvent) (a₂ : Nat)
        (r₂ : List GitHubRepo) (post : List LoadEvent),
        mid = List.replicate mid.length LoadEvent.step →
        post = List.replicate post.length LoadEvent.step →
        mid.length ≤ a₁ →
        (runEvents LoadSys.init
            (LoadEvent.start a₁ r₁ :: (mid ++ LoadEvent.start a₂ r₂ :: post))).repositories = []
          ∧ (runEvents LoadSys.init
              (LoadEvent.start a₁ r₁ :: (mid ++ LoadEvent.start a₂ r₂ :: post))).appliedGen = none
        ∨ (runEvents LoadSys.init
            (LoadEvent.start a₁ r₁ :: (mid ++ LoadEvent.start a₂ r₂ :: post))).repositories = r₂
          ∧ (runEvents LoadSys.init
              (LoadEvent.start a₁ r₁ :: (mid ++ LoadEvent.start a₂ r₂ :: post))).appliedGen =
            some 2) :=
  ⟨fun tr e h => applyEvent_applies_latest (runEvents_inv init_inv tr) e h,
    two_load_scenario⟩

/-- C1 (witness): a two-await first load passes one await, a refresh starts
a two-await second load, and three further steps resolve everything: the
session ends with the second load's result; and a commit transition applies
the current generation. -/
theorem c1_witness :
    ((runEvents LoadSys.init
        (LoadEvent.start 2 [sampleRepo] ::
          ([LoadEvent.step] ++ LoadEvent.start 2 [sampleRepo2] ::
            [LoadEvent.step, LoadEvent.step, LoadEvent.step]))).repositories = []
      ∧ (runEvents LoadSys.init
          (LoadEvent.start 2 [sampleRepo] ::
            ([LoadEvent.step] ++ LoadEvent.start 2 [sampleRepo2] ::
              [LoadEvent.step, LoadEvent.step, LoadEvent.step]))).appliedGen = none
    ∨ (runEvents LoadSys.init
        (LoadEvent.start 2 [sampleRepo] ::
          ([LoadEvent.step] ++ LoadEvent.start 2 [sampleRepo2] ::
            [LoadEvent.step, LoadEvent.step, LoadEvent.step]))).repositories = [sampleRepo2]
      ∧ (runEvents LoadSys.init
          (LoadEvent.start 2 [sampleRepo] ::
            ([LoadEvent.step] ++ LoadEvent.start 2 [sampleRepo2] ::
              [LoadEvent.step, LoadEvent.step, LoadEvent.step]))).appliedGen = some 2)
    ∧ (applyEvent (runEvents LoadSys.init [LoadEvent.start 0 [sampleRepo]])
          LoadEvent.step).appliedGen =
        some (runEvents LoadSys.init [LoadEvent.start 0 [sampleRepo]]).curGen :=
  ⟨c1_load_supersession.2 2 [sampleRepo] [LoadEvent.step] 2 [sampleRepo2]
      [LoadEvent.step, LoadEvent.step, LoadEvent.step] rfl rfl (by decide),
    c1_load_supersession.1 [LoadEvent.start 0 [sampleRepo]] LoadEvent.step (by decide)⟩

/-- C8: the detail rendering cannot succeed on the repository's own data
model.  `update_display` reads `repo.license` (browser.py line 53) — and
would next read `repo.homepage` (line 57) — but `GitHubRepo`
(models.py lines 32-56) declares neither field, so the read raises
`AttributeError` for every record the Loader can produce, including the test
suite's own `sample_repo` fixture on which
`test_update_display_with_repo` expects the rendering to succeed. -/
theorem c8_update_display_fails :
    (∀ repo : GitHubRepo, update_display repo =
      Except.error "AttributeError: 'GitHubRepo' object has no attribute 'license'")
    ∧ update_display sampleRepo =
      Except.error "AttributeError: 'GitHubRepo' object has no attribute 'license'" :=
  ⟨fun _ => rfl, rfl⟩

end MyGH
